import Mathlib

/-!
Verification of the cron maintenance script (`cron_script.py`) of the
Rust-Garmin repository. The script is a linear pipeline: an optional
working-directory change, a session-file evictor, a stale-output pruner,
and a collector invocation. Below, each step is shallowly embedded as a
pure Lean function over an explicit world state; wall-clock time is
modelled in integer epoch seconds and timezone offsets in seconds.
-/

namespace Garmin

/-! ## Session-file evictor

The script opens `.garmin_session.json`, parses it as JSON, and compares
`time.time()` against `int(contents[...])` with a strict `>`; only
`FileNotFoundError` is caught. The possible states of the file and the
uncaught Python exceptions are modelled explicitly. -/

/-- State of the `.garmin_session.json` file as seen by the script:
absent, unreadable in one of three ways, or carrying an integer
expiration timestamp (epoch seconds). -/
inductive SessionFile where
  | missing
  | invalidJson
  | noExpiresKey
  | badExpiresValue
  | valid (expires_at : Int)
deriving DecidableEq, Repr

/-- Python exceptions the evictor block can raise uncaught. -/
inductive PyError where
  | jsonDecodeError
  | keyError
  | valueError
deriving DecidableEq, Repr

/-- The evictor block: `try: load; if time.time() > int(e): remove else
keep; except FileNotFoundError: pass`. Returns the new state of the
session file and the lines printed, or the uncaught exception. -/
def evictSession (now : Int) (s : SessionFile) :
    Except PyError (SessionFile × List String) :=
  match s with
  | .missing => .ok (.missing, [])
  | .invalidJson => .error .jsonDecodeError
  | .noExpiresKey => .error .keyError
  | .badExpiresValue => .error .valueError
  | .valid e =>
      if now > e then .ok (.missing, ["Removing state session file"])
      else .ok (.valid e, ["Found valid session file!"])

/-! ## Timezone and midnight reference

`tz = datetime.timezone(-timedelta(hours=5))` and
`midnight = datetime.combine(date.today(), time(0,0,0,0,tz), tzinfo=tz)`.
An aware datetime is an instant (epoch seconds) plus a UTC offset;
comparison of aware datetimes compares instants. `date.today()` is the
calendar date of the current instant in the HOST timezone. -/

/-- The fixed UTC-5 offset, in seconds. -/
def tz : Int := -(5 * 3600)

/-- Calendar day ordinal (days since the epoch) of instant `t` at UTC
offset `off`: floor division of local seconds by 86400. -/
def epochDay (t off : Int) : Int := (t + off).fdiv 86400

/-- A timezone-aware datetime: the instant it denotes (epoch seconds)
and the UTC offset it is displayed in. -/
structure AwareDatetime where
  instant : Int
  utcOffset : Int
deriving DecidableEq, Repr

/-- Embedding of `datetime.fromtimestamp(ts, tz=off)`: the same
instant, displayed at offset `off`. -/
def fromtimestamp (ts off : Int) : AwareDatetime := ⟨ts, off⟩

/-- Local midnight of day ordinal `day` at the fixed UTC-5 offset:
local 00:00:00 of that day corresponds to instant `day * 86400 - tz`. -/
def midnightOfDay (day : Int) : AwareDatetime := ⟨day * 86400 - tz, tz⟩

/-- The variable `midnight` of the script: 00:00:00 in the fixed UTC-5
offset on `date.today()`, where `date.today()` reads the current date
in the HOST timezone (`hostOff` seconds from UTC). -/
def midnight (now hostOff : Int) : AwareDatetime :=
  midnightOfDay (epochDay now hostOff)

/-- Modelled from the spec: the reference timestamp the spec describes,
namely midnight of the current date as determined in the fixed UTC-5
offset itself. Stated for comparison with `midnight`. -/
def specMidnightUTC5 (now : Int) : AwareDatetime :=
  midnightOfDay (epochDay now tz)

/-- Aware-datetime `<`: Python compares aware datetimes by instant. -/
def dtLt (a b : AwareDatetime) : Bool := decide (a.instant < b.instant)

/-! ## Stale-output pruner

`os.path.splitext` over POSIX paths, the per-file deletion predicate,
and one sweep of the pruning loop. -/

/-- Index (from the left) of the last occurrence of `c` in `cs`,
starting from position `i`; `acc` is the best index seen so far. -/
def lastIdxAux (c : Char) : List Char → Nat → Option Nat → Option Nat
  | [], _, acc => acc
  | x :: xs, i, acc =>
      lastIdxAux c xs (i + 1) (if x = c then some i else acc)

/-- Index of the last occurrence of `c` in `cs`, if any. -/
def lastIdx (c : Char) (cs : List Char) : Option Nat :=
  lastIdxAux c cs 0 none

/-- Embedding of `os.path.splitext(p)` for POSIX paths: split at the last dot, but
only if that dot lies inside the basename and the basename has a
non-dot character before it (so dotfiles like `.bashrc` have no
extension). -/
def splitext (p : String) : String × String :=
  let cs := p.data
  match lastIdx '.' cs with
  | none => (p, "")
  | some di =>
      let si : Nat :=
        match lastIdx '/' cs with
        | none => 0
        | some k => k + 1
      if di < si then (p, "")
      else if ((cs.drop si).take (di - si)).any (fun ch => ch ≠ '.') then
        (⟨cs.take di⟩, ⟨cs.drop di⟩)
      else (p, "")

/-- One file met by the `os.walk` loop: its joined path and the
creation timestamp `os.path.getctime` reports (epoch seconds). -/
structure FileEntry where
  path : String
  ctime : Int
deriving DecidableEq, Repr

/-- The test of the loop body: `creation_date < midnight and ext in
config["files_to_prune"]`, with `creation_date =
fromtimestamp(timestamp, tz=tz)` and `_, ext = splitext(filename)`. -/
def shouldPrune (files_to_prune : List String) (mid : AwareDatetime)
    (f : FileEntry) : Bool :=
  dtLt (fromtimestamp f.ctime tz) mid &&
    decide ((splitext f.path).2 ∈ files_to_prune)

/-- One pruning sweep over the enumerated files: the files that remain
and the files `os.remove` deletes. -/
def pruneSweep (files_to_prune : List String) (mid : AwareDatetime)
    (fs : List FileEntry) : List FileEntry × List FileEntry :=
  (fs.filter (fun f => !shouldPrune files_to_prune mid f),
   fs.filter (fun f => shouldPrune files_to_prune mid f))

/-! ## Collector invoker

`yesterday = date.today() - timedelta(days=1)`; a dict of seven
`--<metric>_date` flags all mapped to `f"{yesterday}"` (ISO
`YYYY-MM-DD`); the argument vector is the executable path followed by
the flag/value pairs in dict insertion order. -/

/-- A proleptic Gregorian calendar date, as `datetime.date` holds it. -/
structure Date where
  year : Nat
  month : Nat
  day : Nat
deriving DecidableEq, Repr

/-- Gregorian leap-year rule. -/
def isLeapYear (y : Nat) : Bool :=
  (y % 4 == 0 && y % 100 != 0) || y % 400 == 0

/-- Number of days in month `m` of year `y`. -/
def daysInMonth (y m : Nat) : Nat :=
  if m = 2 then (if isLeapYear y then 29 else 28)
  else if m = 4 ∨ m = 6 ∨ m = 9 ∨ m = 11 then 30
  else 31

/-- Embedding of `d - timedelta(days=1)`: the previous calendar day. -/
def prevDay (d : Date) : Date :=
  if d.day > 1 then ⟨d.year, d.month, d.day - 1⟩
  else if d.month > 1 then ⟨d.year, d.month - 1, daysInMonth d.year (d.month - 1)⟩
  else ⟨d.year - 1, 12, 31⟩

/-- The decimal digit character of `n % 10`. -/
def digitChar (n : Nat) : Char := Char.ofNat (48 + n % 10)

/-- Two-digit zero-padded decimal (`%02d` for values below 100). -/
def pad2 (n : Nat) : String := ⟨[digitChar (n / 10), digitChar n]⟩

/-- Four-digit zero-padded decimal (`%04d` for values below 10000). -/
def pad4 (n : Nat) : String :=
  ⟨[digitChar (n / 1000), digitChar (n / 100), digitChar (n / 10), digitChar n]⟩

/-- String formatting of a `datetime.date`: ISO `YYYY-MM-DD`. -/
def isoformat (d : Date) : String :=
  pad4 d.year ++ "-" ++ pad2 d.month ++ "-" ++ pad2 d.day

/-- The `options` dict, in insertion order, every value the given
`yesterday` string. -/
def options (yesterday : String) : List (String × String) :=
  [("--summary_date", yesterday),
   ("--weight_date", yesterday),
   ("--sleep_date", yesterday),
   ("--resting_heart_date", yesterday),
   ("--monitor_date", yesterday),
   ("--hydration_date", yesterday),
   ("--activity_date", yesterday)]

/-- The constructed argument vector `exe`: the executable path
`os.path.join(os.getcwd(), "target", "debug", "garmin")` first, then
each flag and its value appended as separate arguments. -/
def buildExe (cwd : String) (today : Date) : List String :=
  let yesterday := isoformat (prevDay today)
  (options yesterday).foldl (fun acc kv => acc ++ [kv.1, kv.2])
    [cwd ++ "/target/debug/garmin"]

/-! ## The whole run -/

/-- Result of `subprocess.run`: exit status and captured stdout. -/
structure ProcResult where
  returncode : Int
  stdout : String
deriving DecidableEq, Repr

/-- Everything the script reads from its environment in one run: the
session-file state, the clock (epoch seconds), the host UTC offset,
`date.today()`, the working directory, the two fields of
`influxdb_config.json`, the files `os.walk` enumerates under
`file_base_path`, and the result of the collector process. -/
structure World where
  sessionFile : SessionFile
  now : Int
  hostOff : Int
  today : Date
  cwd : String
  file_base_path : String
  files_to_prune : List String
  outputFiles : List FileEntry
  collector : ProcResult
deriving Repr

/-- Observable outcome of one run of the script. -/
structure ScriptResult where
  uncaught : Option PyError
  sessionFile : SessionFile
  outputFiles : List FileEntry
  pruned : List FileEntry
  collectorRan : Bool
  log : List String
  exitCode : Int
deriving Repr

/-- The script, top to bottom: evictor, then pruning sweep, then
collector invocation. An exception uncaught by the evictor aborts the
run before the pruning sweep, leaving every file in place; otherwise
the sweep and the collector run unconditionally, and the exit status
of the collector is never read. -/
def runScript (w : World) : ScriptResult :=
  match evictSession w.now w.sessionFile with
  | .error e => ⟨some e, w.sessionFile, w.outputFiles, [], false, [], 1⟩
  | .ok (s2, log1) =>
      let mid := midnight w.now w.hostOff
      let kept := (pruneSweep w.files_to_prune mid w.outputFiles).1
      let pruned := (pruneSweep w.files_to_prune mid w.outputFiles).2
      let log2 :=
        ("Attempting to prune files in output directory " ++ w.file_base_path)
          :: pruned.map (fun f => "Pruning old file " ++ f.path)
      let exe := buildExe w.cwd w.today
      let log3 :=
        ["Executing command:\n\n" ++ String.intercalate " " exe ++ "\n",
         w.collector.stdout]
      ⟨none, s2, kept, pruned, true, log1 ++ log2 ++ log3, 0⟩

/-! ## Theorems for the claims -/

/-- C1 (counterexample): at current time 100 with `expires_at = 100`
the current time is greater than or equal to the expiry, yet the
evictor keeps the session file, because the source compares with a
strict greater-than. This refutes the claim that the file is deleted
whenever current time is greater than or equal to `expires_at`. -/
theorem evict_boundary_counterexample :
    (100 : Int) ≥ 100 ∧
    evictSession 100 (SessionFile.valid 100) =
      Except.ok (SessionFile.valid 100, ["Found valid session file!"]) :=
  ⟨le_refl 100, rfl⟩

/-- C1 (amended): the evictor deletes the session file (reporting a
state reset) exactly when the current time is STRICTLY greater than
`expires_at`, and keeps it (reporting a valid session) exactly when
the current time is at most `expires_at`; in particular the file is
retained when `expires_at` equals the current time, and retained when
it is one second in the future. -/
theorem evict_expiry_boundary (now e : Int) :
    (evictSession now (SessionFile.valid e) =
      Except.ok (SessionFile.missing, ["Removing state session file"]) ↔
        now > e) ∧
    (evictSession now (SessionFile.valid e) =
      Except.ok (SessionFile.valid e, ["Found valid session file!"]) ↔
        now ≤ e) := by
  unfold evictSession
  by_cases h : now > e
  · simp [h]
  · simp [h]
    omega

/-- Witness for C1 (amended): at current time 101 and expiry 100 the
session file is deleted. -/
theorem evict_expiry_boundary_witness :
    evictSession 101 (SessionFile.valid 100) =
      Except.ok (SessionFile.missing, ["Removing state session file"]) :=
  (evict_expiry_boundary 101 100).1.mpr (by decide)

/-- C2: among files whose extension is in the configured prune set, a
file whose creation timestamp equals the midnight reference exactly is
NOT deleted (the comparison is a strict less-than), while a file whose
creation timestamp is one second earlier IS deleted. -/
theorem prune_cutoff_boundary (fp : List String) (now hostOff : Int)
    (f g : FileEntry)
    (hf : (splitext f.path).2 ∈ fp) (hg : (splitext g.path).2 ∈ fp)
    (hcf : f.ctime = (midnight now hostOff).instant)
    (hcg : g.ctime = (midnight now hostOff).instant - 1) :
    shouldPrune fp (midnight now hostOff) f = false ∧
    shouldPrune fp (midnight now hostOff) g = true := by
  unfold shouldPrune dtLt fromtimestamp
  simp [hf, hg, hcf, hcg]

/-- Witness for C2: with prune set `[".fit"]` and midnight reference at
instant 104400, a `.fit` file created at 104400 is kept and one
created at 104399 is deleted. -/
theorem prune_cutoff_boundary_witness :
    shouldPrune [".fit"] (midnight 100000 0) ⟨"a.fit", 104400⟩ = false ∧
    shouldPrune [".fit"] (midnight 100000 0) ⟨"b.fit", 104399⟩ = true :=
  prune_cutoff_boundary [".fit"] 100000 0 ⟨"a.fit", 104400⟩ ⟨"b.fit", 104399⟩
    (by decide) (by decide) (by decide) (by decide)

/-- C3: a file enumerated under `file_base_path` is deleted by the
pruning sweep if and only if its creation time is strictly earlier than
the midnight reference AND its extension (leading dot included, exact
case-sensitive string equality) is a member of `files_to_prune`; hence
a file whose extension is not in the set is never deleted, regardless
of its age. -/
theorem prune_extension_precision (fp : List String) (now hostOff : Int)
    (fs : List FileEntry) (f : FileEntry) :
    f ∈ (pruneSweep fp (midnight now hostOff) fs).2 ↔
      f ∈ fs ∧ f.ctime < (midnight now hostOff).instant ∧
        (splitext f.path).2 ∈ fp := by
  simp [pruneSweep, List.mem_filter, shouldPrune, dtLt, fromtimestamp,
    and_assoc]

/-- Witness for C3: an old `.fit` file is in the deleted list of a
concrete sweep. -/
theorem prune_extension_precision_witness :
    (⟨"a.fit", 0⟩ : FileEntry) ∈
      (pruneSweep [".fit"] (midnight 100000 0)
        [⟨"a.fit", 0⟩, ⟨"b.txt", 0⟩]).2 :=
  (prune_extension_precision [".fit"] 100000 0 _ _).mpr (by decide)

/-- C4 (counterexample): with a host at UTC (offset 0) and current
instant 3600 (one hour past an epoch-day boundary), the script computes
the midnight reference from the HOST-local current date, which differs
from midnight of the current date as determined in the fixed UTC-5
offset. This refutes the claim that the date is determined in the
fixed UTC-5 offset. -/
theorem midnight_reference_counterexample :
    midnight 3600 0 ≠ specMidnightUTC5 3600 := by decide

/-- C4 (amended): the midnight reference is 00:00:00 in the fixed
UTC-5 offset on the HOST-local current date (it agrees with the
spec-described UTC-5-date reference exactly when the host offset is
UTC-5), and each file creation timestamp is converted to the same
fixed UTC-5 offset and compared to the reference as an instant. -/
theorem midnight_reference_amended (now hostOff : Int) :
    (midnight now hostOff).utcOffset = tz ∧
    (midnight now hostOff).instant = epochDay now hostOff * 86400 - tz ∧
    (hostOff = tz → midnight now hostOff = specMidnightUTC5 now) ∧
    (∀ fp f, shouldPrune fp (midnight now hostOff) f =
      (decide (f.ctime < (midnight now hostOff).instant) &&
       decide ((splitext f.path).2 ∈ fp))) := by
  refine ⟨rfl, rfl, ?_, ?_⟩
  · intro h
    subst h
    rfl
  · intro fp f
    rfl

/-- Witness for C4 (amended): when the host offset is the fixed UTC-5
offset, the computed reference agrees with the spec-described one. -/
theorem midnight_reference_amended_witness :
    midnight 3600 tz = specMidnightUTC5 3600 :=
  (midnight_reference_amended 3600 tz).2.2.1 rfl

/-- C5: every flag/value pair in the constructed options mapping
carries the ISO `YYYY-MM-DD` string of the day before the current
date. -/
theorem date_computation (today : Date) (k v : String)
    (h : (k, v) ∈ options (isoformat (prevDay today))) :
    v = isoformat (prevDay today) := by
  simp [options] at h
  obtain ⟨-, h⟩ | ⟨-, h⟩ | ⟨-, h⟩ | ⟨-, h⟩ | ⟨-, h⟩ | ⟨-, h⟩ | ⟨-, h⟩ := h <;>
    exact h

/-- Witness for C5: with current date 2024-03-15, the summary flag is
present and its value is exactly the string 2024-03-14. -/
theorem date_computation_witness :
    ("--summary_date", "2024-03-14") ∈
      options (isoformat (prevDay ⟨2024, 3, 15⟩)) ∧
    "2024-03-14" = isoformat (prevDay ⟨2024, 3, 15⟩) :=
  ⟨by decide,
   date_computation ⟨2024, 3, 15⟩ "--summary_date" "2024-03-14" (by decide)⟩

/-- C6: the constructed argument vector is the executable path first,
followed by exactly seven flag/value pairs as separate adjacent
arguments, in the fixed order summary, weight, sleep, resting-heart,
monitor, hydration, activity. -/
theorem argument_ordering (cwd : String) (today : Date) :
    buildExe cwd today =
      [cwd ++ "/target/debug/garmin",
       "--summary_date", isoformat (prevDay today),
       "--weight_date", isoformat (prevDay today),
       "--sleep_date", isoformat (prevDay today),
       "--resting_heart_date", isoformat (prevDay today),
       "--monitor_date", isoformat (prevDay today),
       "--hydration_date", isoformat (prevDay today),
       "--activity_date", isoformat (prevDay today)] := rfl

/-- C7: the exit status of the invoked collector is never inspected:
for any two collector results with the same captured stdout, the whole
run of the script (printed lines, final files, exit code) is
identical — in particular a non-zero collector exit changes nothing. -/
theorem collector_exit_ignored (w : World) (rc : Int) :
    runScript { w with collector := ⟨rc, w.collector.stdout⟩ } =
      runScript w := by
  cases w with
  | mk s now hostOff today cwd fbp fpr out coll =>
    cases coll with
    | mk rc0 so =>
      simp only [runScript]

/-- C8: when no session file exists, the evictor is a no-op (no
deletion, no error, no message) and the script proceeds normally to
the pruning sweep and the collector invocation, exiting with code
0. -/
theorem session_absence_tolerance (w : World)
    (h : w.sessionFile = SessionFile.missing) :
    evictSession w.now w.sessionFile = Except.ok (SessionFile.missing, []) ∧
    (runScript w).uncaught = none ∧
    (runScript w).sessionFile = SessionFile.missing ∧
    (runScript w).pruned =
      (pruneSweep w.files_to_prune (midnight w.now w.hostOff)
        w.outputFiles).2 ∧
    (runScript w).collectorRan = true ∧
    (runScript w).exitCode = 0 := by
  simp [runScript, evictSession, h]

/-- Witness for C8: a concrete run with no session file reports no
uncaught exception. -/
theorem session_absence_tolerance_witness :
    (runScript ⟨SessionFile.missing, 0, 0, ⟨2024, 3, 15⟩, "/repo",
      "output", [".fit"], [], ⟨0, "ok"⟩⟩).uncaught = none :=
  (session_absence_tolerance
    ⟨SessionFile.missing, 0, 0, ⟨2024, 3, 15⟩, "/repo", "output",
      [".fit"], [], ⟨0, "ok"⟩⟩ rfl).2.1

/-- C9: pruning is idempotent — for any file list and fixed midnight
reference, a second sweep over the files kept by a first sweep deletes
nothing. -/
theorem prune_idempotent (fp : List String) (now hostOff : Int)
    (fs : List FileEntry) :
    (pruneSweep fp (midnight now hostOff)
      (pruneSweep fp (midnight now hostOff) fs).1).2 = [] := by
  simp only [pruneSweep]
  induction fs with
  | nil => rfl
  | cons f rest ih =>
      cases h : shouldPrune fp (midnight now hostOff) f
      · simp [List.filter_cons, h, ih]
      · simp [List.filter_cons, h, ih]

/-- C10: if the session file exists but is invalid JSON, lacks the
`expires_at` key, or its value is not convertible to an integer, the
run aborts with an uncaught exception before the pruning sweep and the
collector invocation: no output file is deleted, the session file is
left in place, and the exit code is non-zero. -/
theorem evictor_failure_atomicity (w : World)
    (h : w.sessionFile = SessionFile.invalidJson ∨
         w.sessionFile = SessionFile.noExpiresKey ∨
         w.sessionFile = SessionFile.badExpiresValue) :
    (runScript w).uncaught.isSome = true ∧
    (runScript w).sessionFile = w.sessionFile ∧
    (runScript w).outputFiles = w.outputFiles ∧
    (runScript w).pruned = [] ∧
    (runScript w).collectorRan = false ∧
    (runScript w).exitCode = 1 := by
  rcases h with h | h | h <;> simp [runScript, evictSession, h]

/-- Witness for C10: a concrete run whose session file is invalid JSON
prunes nothing, even though an old prunable file is present. -/
theorem evictor_failure_atomicity_witness :
    (runScript ⟨SessionFile.invalidJson, 0, 0, ⟨2024, 3, 15⟩, "/repo",
      "output", [".fit"], [⟨"old.fit", -100000⟩], ⟨0, "ok"⟩⟩).pruned = [] :=
  (evictor_failure_atomicity
    ⟨SessionFile.invalidJson, 0, 0, ⟨2024, 3, 15⟩, "/repo", "output",
      [".fit"], [⟨"old.fit", -100000⟩], ⟨0, "ok"⟩⟩ (Or.inl rfl)).2.2.2.1

end Garmin
